import Mathlib

/-!
Verification development for a specimen-dashboard pipeline.

The program loads a CSV of rabbit-specimen records (with an encoding
fallback of utf-8, latin1, cp1252), coerces the coordinate, altitude and
date columns, drops rows lacking valid coordinates, and then applies a
chain of sidebar filters (species membership, location substring, date
range, altitude range) to produce a filtered view.

The shallow embedding below mirrors `load_data` and the filter chain of
`appProyectoFinal.py`.  A raw CSV cell is classified by how the pandas
coercions treat it: `Cell.num q` is a value that numeric coercion parses
as `q`, `Cell.date d` a value that date coercion parses as day number
`d`, `Cell.text s` a value neither coercion parses, and `Cell.null` an
empty/NaN cell.  Numbers are rationals, dates are integer day numbers.
-/

namespace Conejos

/-- A raw CSV cell, classified by how the dataframe coercions treat it. -/
inductive Cell where
  | null
  | num (q : ℚ)
  | date (d : ℤ)
  | text (s : String)
deriving DecidableEq

/-- `pd.to_numeric(·, errors="coerce")` on one cell: a value that does not
parse as a number becomes missing, never an error. -/
def to_numeric : Cell → Option ℚ
  | Cell.num q => some q
  | _ => none

/-- `pd.to_datetime(·, errors="coerce")` on one cell: a value that does not
parse as a date becomes missing, never an error. -/
def to_datetime : Cell → Option ℤ
  | Cell.date d => some d
  | _ => none

/-- `astype(str)` on one cell.  A NaN cell becomes the literal string
"nan" (the pandas behaviour that matters for the location filter). -/
def astype_str : Cell → String
  | Cell.null => "nan"
  | Cell.num q => toString q
  | Cell.date d => toString d
  | Cell.text s => s

/-- One row of the source CSV, before any cleaning. -/
structure RawRow where
  latitud : Cell
  longitud : Cell
  especie : Cell
  lugar : Cell
  fecha : Cell
  altitud : Cell
deriving DecidableEq

/-- The source table as parsed by `read_csv`: its rows plus whether the
optional `Fecha` and `Altitud` columns exist at all. -/
structure RawFrame where
  rows : List RawRow
  hasFechaCol : Bool
  hasAltCol : Bool
deriving DecidableEq

/-- A record of the canonical dataset after `load_data`'s coercions.
Latitude and longitude stay `Option` here so that the non-null invariant
is a theorem about `load_data`, not a typing artifact. -/
structure Row where
  latitud : Option ℚ
  longitud : Option ℚ
  especie : String
  lugar : Cell
  fecha : Option ℤ
  altitud : Option ℚ
deriving DecidableEq

/-- The cleaned dataframe. -/
structure Frame where
  rows : List Row
  hasFechaCol : Bool
  hasAltCol : Bool
deriving DecidableEq

/-- The per-row coercions of `load_data`: latitude/longitude via
`to_numeric`, species via `astype(str)`, and the optional `Altitud` /
`Fecha` columns coerced only when the column exists. -/
def clean_row (hasFechaCol hasAltCol : Bool) (r : RawRow) : Row :=
  { latitud := to_numeric r.latitud
    longitud := to_numeric r.longitud
    especie := astype_str r.especie
    lugar := r.lugar
    fecha := if hasFechaCol then to_datetime r.fecha else none
    altitud := if hasAltCol then to_numeric r.altitud else none }

/-- The predicate of `dropna(subset=["Latitud", "Longitud"])`. -/
def coord_ok (r : Row) : Bool :=
  r.latitud.isSome && r.longitud.isSome

/-- `load_data` after the file has been read and parsed: coerce the
columns, then drop every row lacking a numeric latitude or longitude. -/
def load_data (f : RawFrame) : Frame :=
  { rows := (f.rows.map (clean_row f.hasFechaCol f.hasAltCol)).filter coord_ok
    hasFechaCol := f.hasFechaCol
    hasAltCol := f.hasAltCol }

/-- `has_fecha`: the `Fecha` column exists and has at least one
non-null value. -/
def has_fecha (df : Frame) : Bool :=
  df.hasFechaCol && df.rows.any (fun r => r.fecha.isSome)

/-- `has_alt`: the `Altitud` column exists and has at least one
non-null value. -/
def has_alt (df : Frame) : Bool :=
  df.hasAltCol && df.rows.any (fun r => r.altitud.isSome)

/-- Lexicographic comparison of character lists by codepoint, the order
Python's `sorted` uses on strings. -/
def chars_le : List Char → List Char → Bool
  | [], _ => true
  | _ :: _, [] => false
  | a :: as, b :: bs =>
    if a < b then true else if b < a then false else chars_le as bs

/-- String comparison by codepoint. -/
def str_le (a b : String) : Bool :=
  chars_le a.toList b.toList

/-- Insert a string into a list sorted ascending (helper for the model
of Python's `sorted`). -/
def insert_le (s : String) : List String → List String
  | [] => [s]
  | t :: ts => if str_le s t then s :: t :: ts else t :: insert_le s ts

/-- Model of Python's `sorted` on a list of strings (insertion sort). -/
def py_sorted (l : List String) : List String :=
  l.foldr insert_le []

/-- `species_options = sorted(df["Especie"].dropna().unique().tolist())`:
after `astype(str)` there are no nulls, so this is the sorted list of
distinct species values. -/
def species_options (df : Frame) : List String :=
  py_sorted (df.rows.map Row.especie).dedup

/-- The non-null values of the `Fecha` column. -/
def fecha_values (df : Frame) : List ℤ :=
  df.rows.filterMap Row.fecha

/-- The non-null values of the `Altitud` column. -/
def alt_values (df : Frame) : List ℚ :=
  df.rows.filterMap Row.altitud

/-- Minimum of a column, skipping missing values (pandas `.min()`);
`none` on an all-missing column. -/
def col_min {α : Type} [Min α] : List α → Option α
  | [] => none
  | x :: xs => some (xs.foldl min x)

/-- Maximum of a column, skipping missing values (pandas `.max()`);
`none` on an all-missing column. -/
def col_max {α : Type} [Max α] : List α → Option α
  | [] => none
  | x :: xs => some (xs.foldl max x)

/-- Python's `int()` applied to a rational: truncation toward zero. -/
def py_int (q : ℚ) : ℤ :=
  if 0 ≤ q.num then ((q.num.natAbs / q.den : ℕ) : ℤ)
  else -((q.num.natAbs / q.den : ℕ) : ℤ)

/-- `global_min_dt = df["Fecha"].min()` (0 when unused; only read when
`has_fecha` holds, in which case the column is non-empty). -/
def global_min_dt (df : Frame) : ℤ :=
  (col_min (fecha_values df)).getD 0

/-- `global_max_dt = df["Fecha"].max()`. -/
def global_max_dt (df : Frame) : ℤ :=
  (col_max (fecha_values df)).getD 0

/-- `global_alt_min = int(df["Altitud"].min())`. -/
def global_alt_min (df : Frame) : ℤ :=
  py_int ((col_min (alt_values df)).getD 0)

/-- `global_alt_max = int(df["Altitud"].max())`. -/
def global_alt_max (df : Frame) : ℤ :=
  py_int ((col_max (alt_values df)).getD 0)

/-- The filter criteria supplied by the sidebar on one interaction:
selected species, location text, and the optional date and altitude
ranges (`none` models endpoints that are Python `None`). -/
structure Criteria where
  species : List String
  lugar : String
  fechaRange : Option (ℤ × ℤ)
  altRange : Option (ℤ × ℤ)
deriving DecidableEq

/-- Case-insensitive substring containment, the literal-pattern reading
of `str.contains(pat, case=False)`.  (pandas interprets the pattern as a
regular expression; for a pattern with no regex metacharacters this is
exactly substring containment.) -/
def contains_ci (hay pat : String) : Bool :=
  ((hay.toList.map Char.toLower).tails).any
    (fun t => (pat.toList.map Char.toLower).isPrefixOf t)

/-- `if selected_species: df[df["Especie"].isin(selected_species)]` —
an empty selection is falsy, so it applies no restriction. -/
def species_stage (sel : List String) (l : List Row) : List Row :=
  if sel.isEmpty then l else l.filter (fun r => sel.contains r.especie)

/-- `if lugar_text: df[df["Lugar"].astype(str).str.contains(lugar_text,
case=False, na=False)]` — note `astype(str)` turns a null cell into the
literal string "nan" before the containment test. -/
def lugar_stage (txt : String) (l : List Row) : List Row :=
  if txt = "" then l
  else l.filter (fun r => contains_ci (astype_str r.lugar) txt)

/-- `Series.between(lo, hi, inclusive="both")` on the date column; a
missing date compares false. -/
def fecha_between (lo hi : ℤ) (r : Row) : Bool :=
  match r.fecha with
  | some d => decide (lo ≤ d) && decide (d ≤ hi)
  | none => false

/-- `Series.between(lo, hi, inclusive="both")` on the altitude column,
with the integer slider bounds; a missing altitude compares false. -/
def alt_between (lo hi : ℤ) (r : Row) : Bool :=
  match r.altitud with
  | some a => decide ((lo : ℚ) ≤ a) && decide (a ≤ (hi : ℚ))
  | none => false

/-- `if has_fecha and start_dt and end_dt: df[df["Fecha"].between(...)]`. -/
def fecha_stage (hasF : Bool) (rng : Option (ℤ × ℤ)) (l : List Row) : List Row :=
  match hasF, rng with
  | true, some (lo, hi) => l.filter (fecha_between lo hi)
  | _, _ => l

/-- `if has_alt and alt_min_sel is not None and alt_max_sel is not None:
df[df["Altitud"].between(...)]`. -/
def alt_stage (hasA : Bool) (rng : Option (ℤ × ℤ)) (l : List Row) : List Row :=
  match hasA, rng with
  | true, some (lo, hi) => l.filter (alt_between lo hi)
  | _, _ => l

/-- The filter chain producing `filtered_df`: species, then location,
then date range, then altitude range, combined by successive
restriction (logical AND). -/
def apply_filters (df : Frame) (c : Criteria) : List Row :=
  alt_stage (has_alt df) c.altRange
    (fecha_stage (has_fecha df) c.fechaRange
      (lugar_stage c.lugar
        (species_stage c.species df.rows)))

/-- The default criteria installed into session state at startup and
restored by `reset_filters`: every species selected, empty location
text, and — when the feature is available — the full date range and the
integer-truncated full altitude range. -/
def default_criteria (df : Frame) : Criteria :=
  { species := species_options df
    lugar := ""
    fechaRange :=
      if has_fecha df then some (global_min_dt df, global_max_dt df) else none
    altRange :=
      if has_alt df then some (global_alt_min df, global_alt_max df) else none }

/-- The outcome of one render cycle of the script after loading: either
a terminal user-visible message (`st.warning` + `st.stop()`) or a
rendered view.  There is no exception outcome: the pipeline is total. -/
inductive CycleResult where
  | noValidCoords
  | noMatches
  | render (view : List Row)
deriving DecidableEq

/-- The script's control flow after `load_data`: stop with a message if
the canonical dataset is empty, apply the filters, stop with a
"no matching records" message if the view is empty, else render. -/
def run_cycle (df : Frame) (c : Criteria) : CycleResult :=
  if df.rows.isEmpty then CycleResult.noValidCoords
  else
    let v := apply_filters df c
    if v.isEmpty then CycleResult.noMatches else CycleResult.render v

/-! ### The encoding-fallback loop of `load_data`

`load_data` begins with `for enc in ["utf-8", "latin1", "cp1252"]`,
trying `read_csv` with each encoding, breaking on the first that does
not raise a decode error, and reporting a read error (then stopping the
cycle) only when the loop exhausts the list.  A file is a byte list;
the three Python codecs are modelled as byte-level decoders producing
codepoint lists. -/

/-- A UTF-8 continuation byte. -/
def is_cont (b : ℕ) : Bool := 0x80 ≤ b && b ≤ 0xBF

/-- Strict UTF-8 decoding of a byte list to codepoints (the `utf-8`
codec): rejects stray continuation bytes, overlong forms, surrogates
and out-of-range leads, like Python's strict decoder. -/
def utf8_decode : List ℕ → Option (List ℕ)
  | [] => some []
  | b :: bs =>
    if b ≤ 0x7F then
      (utf8_decode bs).map (fun t => b :: t)
    else if 0xC2 ≤ b && b ≤ 0xDF then
      match bs with
      | b1 :: bs1 =>
        if is_cont b1 then
          (utf8_decode bs1).map (fun t => ((b - 0xC0) * 0x40 + (b1 - 0x80)) :: t)
        else none
      | [] => none
    else if 0xE0 ≤ b && b ≤ 0xEF then
      match bs with
      | b1 :: b2 :: bs2 =>
        let ok1 : Bool :=
          if b == 0xE0 then 0xA0 ≤ b1 && b1 ≤ 0xBF
          else if b == 0xED then 0x80 ≤ b1 && b1 ≤ 0x9F
          else is_cont b1
        if ok1 && is_cont b2 then
          (utf8_decode bs2).map
            (fun t => ((b - 0xE0) * 0x1000 + (b1 - 0x80) * 0x40 + (b2 - 0x80)) :: t)
        else none
      | _ => none
    else if 0xF0 ≤ b && b ≤ 0xF4 then
      match bs with
      | b1 :: b2 :: b3 :: bs3 =>
        let ok1 : Bool :=
          if b == 0xF0 then 0x90 ≤ b1 && b1 ≤ 0xBF
          else if b == 0xF4 then 0x80 ≤ b1 && b1 ≤ 0x8F
          else is_cont b1
        if ok1 && is_cont b2 && is_cont b3 then
          (utf8_decode bs3).map
            (fun t =>
              ((b - 0xF0) * 0x40000 + (b1 - 0x80) * 0x1000
                + (b2 - 0x80) * 0x40 + (b3 - 0x80)) :: t)
        else none
      | _ => none
    else none

/-- The `latin1` codec: every byte is its own codepoint, so decoding
never fails on any byte sequence. -/
def latin1_decode (bs : List ℕ) : Option (List ℕ) :=
  some bs

/-- One byte under the `cp1252` codec: ASCII and 0xA0–0xFF map to
themselves, 0x80–0x9F map through the Windows-1252 table, and the five
unassigned bytes (0x81, 0x8D, 0x8F, 0x90, 0x9D) fail. -/
def cp1252_byte (b : ℕ) : Option ℕ :=
  if b ≤ 0x7F then some b
  else if 0xA0 ≤ b && b ≤ 0xFF then some b
  else match b with
  | 0x80 => some 0x20AC
  | 0x82 => some 0x201A
  | 0x83 => some 0x0192
  | 0x84 => some 0x201E
  | 0x85 => some 0x2026
  | 0x86 => some 0x2020
  | 0x87 => some 0x2021
  | 0x88 => some 0x02C6
  | 0x89 => some 0x2030
  | 0x8A => some 0x0160
  | 0x8B => some 0x2039
  | 0x8C => some 0x0152
  | 0x8E => some 0x017D
  | 0x91 => some 0x2018
  | 0x92 => some 0x2019
  | 0x93 => some 0x201C
  | 0x94 => some 0x201D
  | 0x95 => some 0x2022
  | 0x96 => some 0x2013
  | 0x97 => some 0x2014
  | 0x98 => some 0x02DC
  | 0x99 => some 0x2122
  | 0x9A => some 0x0161
  | 0x9B => some 0x203A
  | 0x9C => some 0x0153
  | 0x9E => some 0x017E
  | 0x9F => some 0x0178
  | _ => none

/-- The `cp1252` codec on a byte list. -/
def cp1252_decode (bs : List ℕ) : Option (List ℕ) :=
  bs.mapM cp1252_byte

/-- The encodings named in the source, as an enumeration. -/
inductive Encoding where
  | utf8
  | latin1
  | cp1252
deriving DecidableEq

/-- Decode a byte list with one encoding; `none` models a raised
`UnicodeDecodeError`. -/
def decode : Encoding → List ℕ → Option (List ℕ)
  | Encoding.utf8 => utf8_decode
  | Encoding.latin1 => latin1_decode
  | Encoding.cp1252 => cp1252_decode

/-- The literal list `["utf-8", "latin1", "cp1252"]` from `load_data`. -/
def encoding_list : List Encoding :=
  [Encoding.utf8, Encoding.latin1, Encoding.cp1252]

/-- The `for`/`break`/`else` loop of `load_data`: try each encoding in
order, keep the first successful decode, `none` when all fail. -/
def try_encodings : List Encoding → List ℕ → Option (List ℕ)
  | [], _ => none
  | e :: es, bs =>
    match decode e bs with
    | some t => some t
    | none => try_encodings es bs

/-- Outcome of the read phase: the decoded text, or the user-visible
read-error-and-stop branch (`st.error` + `st.stop()`).  `load_data`
never raises to a caller. -/
inductive ReadOutcome where
  | ok (t : List ℕ)
  | readError
deriving DecidableEq

/-- The read phase of `load_data` over the fixed encoding list. -/
def read_with_fallback (bs : List ℕ) : ReadOutcome :=
  match try_encodings encoding_list bs with
  | some t => ReadOutcome.ok t
  | none => ReadOutcome.readError

/-! ### General lemmas about the filter chain -/

/-- Filtering with a weaker predicate keeps at least the rows kept by a
stronger one. -/
theorem filter_sublist_mono {α : Type} {p q : α → Bool}
    (h : ∀ a, p a = true → q a = true) (l : List α) :
    List.Sublist (l.filter p) (l.filter q) := by
  induction l with
  | nil => simp
  | cons a t ih =>
    rw [List.filter_cons, List.filter_cons]
    cases hp : p a with
    | true =>
      rw [h a hp]
      simpa using ih.cons₂ a
    | false =>
      cases hq : q a with
      | true => simpa using ih.cons a
      | false => simpa using ih

/-- Mapping then filtering counts the same rows as filtering the
preimages. -/
theorem length_filter_map_eq {α β : Type} (f : α → β) (p : β → Bool) (l : List α) :
    ((l.map f).filter p).length = (l.filter (fun a => p (f a))).length := by
  induction l with
  | nil => rfl
  | cons a t ih =>
    rw [List.map_cons, List.filter_cons, List.filter_cons]
    cases hp : p (f a) <;> simp [hp, ih]

/-- The species stage only drops rows. -/
theorem species_stage_sublist (sel : List String) (l : List Row) :
    List.Sublist (species_stage sel l) l := by
  unfold species_stage
  split
  · exact List.Sublist.refl l
  · exact List.filter_sublist l

/-- The location stage only drops rows. -/
theorem lugar_stage_sublist (txt : String) (l : List Row) :
    List.Sublist (lugar_stage txt l) l := by
  unfold lugar_stage
  split
  · exact List.Sublist.refl l
  · exact List.filter_sublist l

/-- The date stage only drops rows. -/
theorem fecha_stage_sublist (hasF : Bool) (rng : Option (ℤ × ℤ)) (l : List Row) :
    List.Sublist (fecha_stage hasF rng l) l := by
  unfold fecha_stage
  split
  · exact List.filter_sublist l
  · exact List.Sublist.refl l

/-- The altitude stage only drops rows. -/
theorem alt_stage_sublist (hasA : Bool) (rng : Option (ℤ × ℤ)) (l : List Row) :
    List.Sublist (alt_stage hasA rng l) l := by
  unfold alt_stage
  split
  · exact List.filter_sublist l
  · exact List.Sublist.refl l

/-- The location stage preserves the sublist relation. -/
theorem lugar_stage_mono (txt : String) {l₁ l₂ : List Row}
    (h : List.Sublist l₁ l₂) :
    List.Sublist (lugar_stage txt l₁) (lugar_stage txt l₂) := by
  unfold lugar_stage
  split
  · exact h
  · exact h.filter _

/-- The date stage preserves the sublist relation. -/
theorem fecha_stage_mono (hasF : Bool) (rng : Option (ℤ × ℤ)) {l₁ l₂ : List Row}
    (h : List.Sublist l₁ l₂) :
    List.Sublist (fecha_stage hasF rng l₁) (fecha_stage hasF rng l₂) := by
  unfold fecha_stage
  split
  · exact h.filter _
  · exact h

/-- The altitude stage preserves the sublist relation. -/
theorem alt_stage_mono (hasA : Bool) (rng : Option (ℤ × ℤ)) {l₁ l₂ : List Row}
    (h : List.Sublist l₁ l₂) :
    List.Sublist (alt_stage hasA rng l₁) (alt_stage hasA rng l₂) := by
  unfold alt_stage
  split
  · exact h.filter _
  · exact h

/-- The whole filter chain produces a sublist of the canonical rows:
filtering never mutates or reorders the dataset, it only selects. -/
theorem apply_filters_sublist (df : Frame) (c : Criteria) :
    List.Sublist (apply_filters df c) df.rows :=
  (alt_stage_sublist _ _ _).trans
    ((fecha_stage_sublist _ _ _).trans
      ((lugar_stage_sublist _ _).trans (species_stage_sublist _ _)))

/-- Widening a date range keeps at least the same rows. -/
theorem fecha_between_mono {lo hi lo' hi' : ℤ} (hlo : lo ≤ lo') (hhi : hi' ≤ hi)
    (r : Row) (h : fecha_between lo' hi' r = true) : fecha_between lo hi r = true := by
  unfold fecha_between at h ⊢
  cases hf : r.fecha with
  | none => rw [hf] at h; exact absurd h (by simp)
  | some d =>
    rw [hf] at h
    simp only [Bool.and_eq_true, decide_eq_true_eq] at h ⊢
    exact ⟨le_trans hlo h.1, le_trans h.2 hhi⟩

/-- Widening an altitude range keeps at least the same rows. -/
theorem alt_between_mono {lo hi lo' hi' : ℤ} (hlo : lo ≤ lo') (hhi : hi' ≤ hi)
    (r : Row) (h : alt_between lo' hi' r = true) : alt_between lo hi r = true := by
  unfold alt_between at h ⊢
  cases hf : r.altitud with
  | none => rw [hf] at h; exact absurd h (by simp)
  | some a =>
    rw [hf] at h
    simp only [Bool.and_eq_true, decide_eq_true_eq] at h ⊢
    refine ⟨le_trans ?_ h.1, le_trans h.2 ?_⟩
    · exact_mod_cast hlo
    · exact_mod_cast hhi

/-! ### C1 -/

/-- C1: every record of the canonical dataset produced by `load_data`
has non-null, numeric latitude and longitude, and the canonical row
count equals the number of source rows whose latitude and longitude
both parse as numeric. -/
theorem C1_canonical_dataset_invariant (f : RawFrame) :
    (∀ r ∈ (load_data f).rows, r.latitud.isSome = true ∧ r.longitud.isSome = true)
    ∧ (load_data f).rows.length
        = (f.rows.filter
            (fun r => (to_numeric r.latitud).isSome
              && (to_numeric r.longitud).isSome)).length := by
  constructor
  · intro r hr
    have h := (List.mem_filter.mp hr).2
    simp only [coord_ok, Bool.and_eq_true] at h
    exact h
  · show ((f.rows.map (clean_row f.hasFechaCol f.hasAltCol)).filter coord_ok).length = _
    rw [length_filter_map_eq]
    rfl

/-- Sample source row with numeric coordinates. -/
def c1_raw_good : RawRow :=
  { latitud := Cell.num (mkRat 10 1)
    longitud := Cell.num (mkRat (-84) 1)
    especie := Cell.text "Sylvilagus dicei"
    lugar := Cell.text "San Carlos, Alajuela"
    fecha := Cell.null
    altitud := Cell.null }

/-- Sample source row whose latitude does not parse as numeric. -/
def c1_raw_bad : RawRow :=
  { c1_raw_good with latitud := Cell.text "N/A" }

/-- Sample source file for C1. -/
def c1_frame : RawFrame :=
  { rows := [c1_raw_good, c1_raw_bad], hasFechaCol := false, hasAltCol := false }

theorem C1_canonical_dataset_invariant_witness :
    ((clean_row false false c1_raw_good).latitud.isSome = true
      ∧ (clean_row false false c1_raw_good).longitud.isSome = true)
    ∧ (load_data c1_frame).rows.length
        = (c1_frame.rows.filter
            (fun r => (to_numeric r.latitud).isSome
              && (to_numeric r.longitud).isSome)).length :=
  ⟨(C1_canonical_dataset_invariant c1_frame).1
      (clean_row false false c1_raw_good) (by decide),
    (C1_canonical_dataset_invariant c1_frame).2⟩

/-! ### C2 -/

/-- C2: a latitude or longitude cell that fails numeric coercion (such
as the text "N/A") becomes missing, and such a row is silently excluded
from the canonical dataset.  The coercions return `none` instead of an
error on unparseable numeric and date cells, and `load_data` is a total
function of the parsed file, so no cell value makes it raise. -/
theorem C2_coercion_failure_silent (f : RawFrame) (r : RawRow)
    (hbad : to_numeric r.latitud = none ∨ to_numeric r.longitud = none) :
    to_numeric (Cell.text "N/A") = none
    ∧ to_datetime (Cell.text "N/A") = none
    ∧ clean_row f.hasFechaCol f.hasAltCol r ∉ (load_data f).rows := by
  refine ⟨rfl, rfl, ?_⟩
  intro hmem
  have h := (List.mem_filter.mp hmem).2
  unfold coord_ok clean_row at h
  rcases hbad with hb | hb <;> rw [hb] at h <;> simp at h

/-- Sample source file for C2: one row whose latitude reads "N/A". -/
def c2_frame : RawFrame :=
  { rows := [{ latitud := Cell.text "N/A"
               longitud := Cell.num (mkRat (-84) 1)
               especie := Cell.text "Sylvilagus dicei"
               lugar := Cell.null
               fecha := Cell.null
               altitud := Cell.null }]
    hasFechaCol := false
    hasAltCol := false }

theorem C2_coercion_failure_silent_witness :
    to_numeric (Cell.text "N/A") = none
    ∧ to_datetime (Cell.text "N/A") = none
    ∧ clean_row false false
        { latitud := Cell.text "N/A"
          longitud := Cell.num (mkRat (-84) 1)
          especie := Cell.text "Sylvilagus dicei"
          lugar := Cell.null
          fecha := Cell.null
          altitud := Cell.null } ∉ (load_data c2_frame).rows :=
  C2_coercion_failure_silent c2_frame _ (Or.inl rfl)

/-! ### C3 -/

/-- Sample canonical record with a null location cell. -/
def c3_row : Row :=
  { latitud := some (mkRat 10 1)
    longitud := some (mkRat (-84) 1)
    especie := "Sylvilagus dicei"
    lugar := Cell.null
    fecha := none
    altitud := none }

/-- Sample canonical dataset for C3. -/
def c3_frame : Frame :=
  { rows := [c3_row], hasFechaCol := false, hasAltCol := false }

/-- Sample criteria for C3: only the location criterion is active, with
the non-empty substring "na". -/
def c3_criteria : Criteria :=
  { species := [], lugar := "na", fechaRange := none, altRange := none }

/-- C3 counterexample: the claim says a record with null location text
never matches any substring criterion, but the code converts the null
cell to the literal string "nan" (`astype(str)`) before the containment
test, so the null-location record matches the non-empty substring "na"
and is retained by the filter. -/
theorem C3_null_location_counterexample :
    c3_criteria.lugar ≠ ""
    ∧ c3_row.lugar = Cell.null
    ∧ apply_filters c3_frame c3_criteria = [c3_row] := by
  refine ⟨by decide, rfl, by decide⟩

/-- C3 (amended): for every non-empty location substring criterion the
filter retains exactly the records whose location cell, rendered as
text — a null cell becoming the literal string "nan" — contains the
substring case-insensitively.  A null-location record therefore matches
exactly the substrings of "nan" (so never a text like "San Carlos"),
not no substrings at all. -/
theorem C3_lugar_filter_amended (txt : String) (l : List Row) (h : txt ≠ "") :
    astype_str Cell.null = "nan"
    ∧ lugar_stage txt l = l.filter (fun r => contains_ci (astype_str r.lugar) txt) := by
  refine ⟨rfl, ?_⟩
  unfold lugar_stage
  rw [if_neg h]

theorem C3_lugar_filter_amended_witness :
    astype_str Cell.null = "nan"
    ∧ lugar_stage "San Carlos" [c3_row]
        = [c3_row].filter (fun r => contains_ci (astype_str r.lugar) "San Carlos") :=
  C3_lugar_filter_amended "San Carlos" [c3_row] (by decide)

/-! ### C4 -/

/-- The filter chain with the species stage omitted entirely: the
"no species criterion at all" pipeline the claim compares against. -/
def apply_filters_no_species (df : Frame) (c : Criteria) : List Row :=
  alt_stage (has_alt df) c.altRange
    (fecha_stage (has_fecha df) c.fechaRange
      (lugar_stage c.lugar df.rows))

/-- C4: an empty selected species set applies no restriction — the
filtered view equals the one computed with no species criterion at all —
while a non-empty set retains exactly the records whose species is a
member of the set. -/
theorem C4_empty_species_passthrough (df : Frame) (c : Criteria) :
    (c.species = [] → apply_filters df c = apply_filters_no_species df c)
    ∧ (c.species ≠ [] →
        species_stage c.species df.rows
          = df.rows.filter (fun r => c.species.contains r.especie)) := by
  constructor
  · intro h
    have hs : species_stage c.species df.rows = df.rows := by
      unfold species_stage
      rw [h]
      simp
    unfold apply_filters apply_filters_no_species
    rw [hs]
  · intro h
    have he : c.species.isEmpty = false := by
      cases hc : c.species with
      | nil => exact absurd hc h
      | cons a t => rfl
    unfold species_stage
    simp [he]

/-- Sample canonical dataset for C4: two species. -/
def c4_frame : Frame :=
  { rows :=
      [{ latitud := some (mkRat 10 1)
         longitud := some (mkRat (-84) 1)
         especie := "Sylvilagus dicei"
         lugar := Cell.null
         fecha := none
         altitud := none },
       { latitud := some (mkRat 9 1)
         longitud := some (mkRat (-83) 1)
         especie := "Sylvilagus gabbi"
         lugar := Cell.null
         fecha := none
         altitud := none }]
    hasFechaCol := false
    hasAltCol := false }

/-- Sample criteria for C4 with an empty species selection. -/
def c4_criteria_empty : Criteria :=
  { species := [], lugar := "", fechaRange := none, altRange := none }

/-- Sample criteria for C4 with one species selected. -/
def c4_criteria_one : Criteria :=
  { species := ["Sylvilagus dicei"], lugar := "", fechaRange := none, altRange := none }

theorem C4_empty_species_passthrough_witness :
    apply_filters c4_frame c4_criteria_empty
      = apply_filters_no_species c4_frame c4_criteria_empty
    ∧ species_stage c4_criteria_one.species c4_frame.rows
        = c4_frame.rows.filter
            (fun r => c4_criteria_one.species.contains r.especie) :=
  ⟨(C4_empty_species_passthrough c4_frame c4_criteria_empty).1 rfl,
    (C4_empty_species_passthrough c4_frame c4_criteria_one).2 (by decide)⟩

/-! ### C5 -/

/-- The encoding loop yields `none` exactly when every listed encoding
fails to decode the file. -/
theorem try_encodings_eq_none_iff (es : List Encoding) (bs : List ℕ) :
    try_encodings es bs = none ↔ ∀ e ∈ es, decode e bs = none := by
  induction es with
  | nil => simp [try_encodings]
  | cons e es ih =>
    cases h : decode e bs with
    | some t => simp [try_encodings, h]
    | none => simp [try_encodings, h, ih]

/-- C5: `load_data` tries utf-8, then latin1, then cp1252, in that
fixed order; the first encoding that decodes without error is used and
no later one is consulted, and the user-visible read-error branch is
taken exactly when all three encodings fail. -/
theorem C5_encoding_fallback_order (bs : List ℕ) :
    (∀ t, decode Encoding.utf8 bs = some t →
      try_encodings encoding_list bs = some t)
    ∧ (decode Encoding.utf8 bs = none →
        ∀ t, decode Encoding.latin1 bs = some t →
          try_encodings encoding_list bs = some t)
    ∧ (decode Encoding.utf8 bs = none → decode Encoding.latin1 bs = none →
        try_encodings encoding_list bs = decode Encoding.cp1252 bs)
    ∧ (read_with_fallback bs = ReadOutcome.readError
        ↔ ∀ e ∈ encoding_list, decode e bs = none) := by
  refine ⟨?_, ?_, ?_, ?_⟩
  · intro t h
    simp [encoding_list, try_encodings, h]
  · intro h1 t h2
    simp [encoding_list, try_encodings, h1, h2]
  · intro h1 h2
    cases h3 : decode Encoding.cp1252 bs <;>
      simp [encoding_list, try_encodings, h1, h2, h3]
  · rw [← try_encodings_eq_none_iff]
    unfold read_with_fallback
    cases h : try_encodings encoding_list bs <;> simp [h]

theorem C5_encoding_fallback_order_witness :
    try_encodings encoding_list [0x61] = some [0x61]
    ∧ try_encodings encoding_list [0xE9] = some [0xE9] :=
  ⟨(C5_encoding_fallback_order [0x61]).1 [0x61] (by decide),
    (C5_encoding_fallback_order [0xE9]).2.1 (by decide) [0xE9] rfl⟩

/-! ### C6 -/

/-- C6: the date-range and altitude-range criteria are evaluated only
when the corresponding feature-availability flag is true and both
endpoints are supplied; when active they retain exactly the records
whose value lies in the inclusive range (`between(..., inclusive=
"both")`), and when the feature is absent the stage passes every record
through. -/
theorem C6_range_filters_gated (hasF hasA : Bool) (rngF rngA : Option (ℤ × ℤ))
    (l : List Row) :
    (hasF = false → fecha_stage hasF rngF l = l)
    ∧ (rngF = none → fecha_stage hasF rngF l = l)
    ∧ (∀ lo hi, hasF = true → rngF = some (lo, hi) →
        fecha_stage hasF rngF l = l.filter (fecha_between lo hi))
    ∧ (hasA = false → alt_stage hasA rngA l = l)
    ∧ (rngA = none → alt_stage hasA rngA l = l)
    ∧ (∀ lo hi, hasA = true → rngA = some (lo, hi) →
        alt_stage hasA rngA l = l.filter (alt_between lo hi)) := by
  refine ⟨?_, ?_, ?_, ?_, ?_, ?_⟩
  · intro h
    rw [h]
    cases rngF with
    | none => rfl
    | some p => cases p; rfl
  · intro h
    rw [h]
    cases hasF <;> rfl
  · intro lo hi h1 h2
    rw [h1, h2]
    rfl
  · intro h
    rw [h]
    cases rngA with
    | none => rfl
    | some p => cases p; rfl
  · intro h
    rw [h]
    cases hasA <;> rfl
  · intro lo hi h1 h2
    rw [h1, h2]
    rfl

/-- Sample canonical dataset for C6: dates available, altitude column
absent. -/
def c6_frame : Frame :=
  { rows :=
      [{ latitud := some (mkRat 10 1)
         longitud := some (mkRat (-84) 1)
         especie := "Sylvilagus dicei"
         lugar := Cell.null
         fecha := some 5
         altitud := none }]
    hasFechaCol := true
    hasAltCol := false }

theorem C6_range_filters_gated_witness :
    fecha_stage (has_fecha c6_frame) (some (0, 10)) c6_frame.rows
      = c6_frame.rows.filter (fecha_between 0 10)
    ∧ alt_stage (has_alt c6_frame) (some (0, 10)) c6_frame.rows = c6_frame.rows :=
  ⟨((C6_range_filters_gated (has_fecha c6_frame) (has_alt c6_frame)
      (some (0, 10)) (some (0, 10)) c6_frame.rows).2.2.1 0 10 (by decide) rfl),
    ((C6_range_filters_gated (has_fecha c6_frame) (has_alt c6_frame)
      (some (0, 10)) (some (0, 10)) c6_frame.rows).2.2.2.1 (by decide))⟩

/-! ### C7 -/

/-- C7: monotonicity of the pipeline.  Adding one species to an
already-non-empty selection never shrinks the filtered view, and
narrowing the date or altitude range to a contained sub-range never
grows it. -/
theorem C7_filter_monotonicity (df : Frame) (c : Criteria) :
    (∀ x s, s ≠ [] →
      (apply_filters df { c with species := s }).length
        ≤ (apply_filters df { c with species := x :: s }).length)
    ∧ (∀ lo hi lo' hi', lo ≤ lo' → hi' ≤ hi →
      (apply_filters df { c with fechaRange := some (lo', hi') }).length
        ≤ (apply_filters df { c with fechaRange := some (lo, hi) }).length)
    ∧ (∀ lo hi lo' hi', lo ≤ lo' → hi' ≤ hi →
      (apply_filters df { c with altRange := some (lo', hi') }).length
        ≤ (apply_filters df { c with altRange := some (lo, hi) }).length) := by
  refine ⟨?_, ?_, ?_⟩
  · intro x s hs
    have hne : s.isEmpty = false := by
      cases hc : s with
      | nil => exact absurd hc hs
      | cons a t => rfl
    have h1 : List.Sublist (species_stage s df.rows)
        (species_stage (x :: s) df.rows) := by
      unfold species_stage
      rw [hne]
      simp only [List.isEmpty_cons, Bool.false_eq_true, if_false]
      refine filter_sublist_mono ?_ df.rows
      intro r hr
      have hmem : r.especie ∈ s := by simpa using hr
      simp [hmem]
    exact (alt_stage_mono (has_alt df) c.altRange
      (fecha_stage_mono (has_fecha df) c.fechaRange
        (lugar_stage_mono c.lugar h1))).length_le
  · intro lo hi lo' hi' h1 h2
    have hf : List.Sublist
        (fecha_stage (has_fecha df) (some (lo', hi'))
          (lugar_stage c.lugar (species_stage c.species df.rows)))
        (fecha_stage (has_fecha df) (some (lo, hi))
          (lugar_stage c.lugar (species_stage c.species df.rows))) := by
      cases hF : has_fecha df with
      | false => exact List.Sublist.refl _
      | true => exact filter_sublist_mono (fecha_between_mono h1 h2) _
    exact (alt_stage_mono (has_alt df) c.altRange hf).length_le
  · intro lo hi lo' hi' h1 h2
    have ha : List.Sublist
        (alt_stage (has_alt df) (some (lo', hi'))
          (fecha_stage (has_fecha df) c.fechaRange
            (lugar_stage c.lugar (species_stage c.species df.rows))))
        (alt_stage (has_alt df) (some (lo, hi))
          (fecha_stage (has_fecha df) c.fechaRange
            (lugar_stage c.lugar (species_stage c.species df.rows)))) := by
      cases hA : has_alt df with
      | false => exact List.Sublist.refl _
      | true => exact filter_sublist_mono (alt_between_mono h1 h2) _
    exact ha.length_le

/-- Sample canonical dataset for C7. -/
def c7_frame : Frame :=
  { rows :=
      [{ latitud := some (mkRat 10 1)
         longitud := some (mkRat (-84) 1)
         especie := "Sylvilagus dicei"
         lugar := Cell.null
         fecha := some 3
         altitud := some (mkRat 900 1) }]
    hasFechaCol := true
    hasAltCol := true }

/-- Sample criteria for C7. -/
def c7_criteria : Criteria :=
  { species := ["Sylvilagus dicei"]
    lugar := ""
    fechaRange := some (0, 10)
    altRange := some (0, 1000) }

theorem C7_filter_monotonicity_witness :
    (apply_filters c7_frame { c7_criteria with species := ["Sylvilagus dicei"] }).length
      ≤ (apply_filters c7_frame
          { c7_criteria with species := "Sylvilagus gabbi" :: ["Sylvilagus dicei"] }).length
    ∧ (apply_filters c7_frame { c7_criteria with altRange := some (100, 800) }).length
        ≤ (apply_filters c7_frame { c7_criteria with altRange := some (0, 1000) }).length :=
  ⟨(C7_filter_monotonicity c7_frame c7_criteria).1 "Sylvilagus gabbi"
      ["Sylvilagus dicei"] (by decide),
    (C7_filter_monotonicity c7_frame c7_criteria).2.2 0 1000 100 800
      (by decide) (by decide)⟩

/-! ### C8 -/

/-- C8: when the combined criteria yield zero records the cycle ends in
the user-visible "no matching records" signal — a normal value of the
total function `run_cycle`, not an exception — and the canonical
dataset `df` is untouched (the view is recomputed from it by selection
only; see `apply_filters_sublist`). -/
theorem C8_empty_view_no_matches (df : Frame) (c : Criteria)
    (hne : df.rows ≠ []) (hempty : apply_filters df c = []) :
    run_cycle df c = CycleResult.noMatches := by
  have h1 : df.rows.isEmpty = false := by
    cases hr : df.rows with
    | nil => exact absurd hr hne
    | cons a t => rfl
  unfold run_cycle
  simp [h1, hempty]

/-- Sample canonical dataset for C8. -/
def c8_frame : Frame :=
  { rows :=
      [{ latitud := some (mkRat 10 1)
         longitud := some (mkRat (-84) 1)
         especie := "Sylvilagus dicei"
         lugar := Cell.null
         fecha := some 3
         altitud := none }]
    hasFechaCol := true
    hasAltCol := false }

/-- Sample criteria for C8: a date range starting after every record
date, so the filtered view is empty. -/
def c8_criteria : Criteria :=
  { species := [], lugar := "", fechaRange := some (100, 200), altRange := none }

theorem C8_empty_view_no_matches_witness :
    run_cycle c8_frame c8_criteria = CycleResult.noMatches :=
  C8_empty_view_no_matches c8_frame c8_criteria (by decide) (by decide)

/-! ### C9 -/

/-- C9: latin1 decoding succeeds on every byte sequence, so the
fallback loop never goes past the second encoding and the
all-encodings-failed read-error branch is unreachable. -/
theorem C9_latin1_total_no_read_error (bs : List ℕ) :
    decode Encoding.latin1 bs = some bs
    ∧ try_encodings encoding_list bs
        = (match decode Encoding.utf8 bs with
           | some t => some t
           | none => decode Encoding.latin1 bs)
    ∧ read_with_fallback bs ≠ ReadOutcome.readError := by
  have h2 : try_encodings encoding_list bs
      = (match decode Encoding.utf8 bs with
         | some t => some t
         | none => decode Encoding.latin1 bs) := by
    cases h : utf8_decode bs <;>
      simp [encoding_list, try_encodings, decode, latin1_decode, h]
  refine ⟨rfl, h2, ?_⟩
  unfold read_with_fallback
  rw [h2]
  cases h : decode Encoding.utf8 bs <;> simp [decode, latin1_decode]

theorem C9_latin1_total_no_read_error_witness :
    read_with_fallback [0xE9] ≠ ReadOutcome.readError :=
  (C9_latin1_total_no_read_error [0xE9]).2.2

/-! ### C10 -/

/-- C10: the default (and reset) altitude criterion truncates the
dataset's minimum and maximum altitude to integers, so a record whose
altitude exceeds the truncated maximum fails the inclusive altitude
test even under the default criteria: it is excluded and the default
filtered view is strictly smaller than the canonical dataset. -/
theorem C10_default_truncation_excludes (df : Frame) (r : Row) (a : ℚ)
    (hmem : r ∈ df.rows) (hA : has_alt df = true) (ha : r.altitud = some a)
    (hgt : ((global_alt_max df : ℤ) : ℚ) < a) :
    r ∉ apply_filters df (default_criteria df)
    ∧ (apply_filters df (default_criteria df)).length < df.rows.length := by
  have hnot : r ∉ apply_filters df (default_criteria df) := by
    intro hin
    have hrange : (default_criteria df).altRange
        = some (global_alt_min df, global_alt_max df) := by
      unfold default_criteria
      simp [hA]
    unfold apply_filters at hin
    rw [hrange, hA] at hin
    have hpred := (List.mem_filter.mp hin).2
    unfold alt_between at hpred
    rw [ha] at hpred
    simp only [Bool.and_eq_true, decide_eq_true_eq] at hpred
    exact absurd hpred.2 (not_le.mpr hgt)
  refine ⟨hnot, ?_⟩
  have hsub := apply_filters_sublist df (default_criteria df)
  rcases Nat.lt_or_ge (apply_filters df (default_criteria df)).length
      df.rows.length with hlt | hge
  · exact hlt
  · exfalso
    have heq := hsub.eq_of_length (le_antisymm hsub.length_le hge)
    rw [heq] at hnot
    exact hnot hmem

/-- Sample canonical record for C10 with the fractional altitude 950.5,
which is also the dataset's maximum altitude. -/
def c10_row : Row :=
  { latitud := some (mkRat 10 1)
    longitud := some (mkRat (-84) 1)
    especie := "Sylvilagus gabbi"
    lugar := Cell.null
    fecha := none
    altitud := some (mkRat 1901 2) }

/-- Sample canonical dataset for C10. -/
def c10_frame : Frame :=
  { rows := [c10_row], hasFechaCol := false, hasAltCol := true }

theorem C10_default_truncation_excludes_witness :
    c10_row ∉ apply_filters c10_frame (default_criteria c10_frame)
    ∧ (apply_filters c10_frame (default_criteria c10_frame)).length
        < c10_frame.rows.length :=
  C10_default_truncation_excludes c10_frame c10_row (mkRat 1901 2)
    (by decide) (by decide) rfl (by decide)

end Conejos
